import Mathlib

/-!
Shallow embedding of `src/banque.py` (mklfactory/Banque).

The Python module defines a bank-account class `CompteBancaire`
(holder `titulaire`, protected balance `_solde`), a savings subclass
`CompteEpargne` adding an interest rate `taux_interet`, and a JSON-export
mixin `ExportJSONMixin` whose `to_json` dumps the instance `__dict__`.

Modelling conventions:
- Python floats are embedded as exact rationals `ℚ` (the spec states all
  mutations are exact); `float(x)` on a numeric value is the identity in
  this model.
- Raising an exception is embedded by returning the exception value
  together with the state reached so far: each mutating method has type
  `... → Option PyError × State`, where the first component is the raised
  exception (`none` on normal return) and the second is the instance state
  when the method returns or raises.  Every `raise` in the source occurs
  before any field assignment, which the translation reproduces literally.
- Python exceptions are values of `PyError`, one constructor per exception
  class used by the source (`TypeError`, `ValueError`), carrying the
  message string from the `raise` statement.
- Values that may or may not be strings (the `titulaire` argument, entries
  of the dictionary consumed by `depuis_dict`) are embedded as `PyVal`.
-/

/-- A dynamically typed Python value, restricted to the shapes the module
manipulates: strings, numbers, and `None` (what `dict.get` returns for an
absent key). -/
inductive PyVal where
  | str (s : String)
  | num (q : ℚ)
  | none
deriving DecidableEq

/-- A raised Python exception: the exception class plus the message passed
to the constructor at the `raise` site. -/
inductive PyError where
  | typeError (msg : String)
  | valueError (msg : String)
deriving DecidableEq

/-- The Python class of an exception value, as seen by an `except` clause. -/
def PyError.className : PyError → String
  | .typeError _ => "TypeError"
  | .valueError _ => "ValueError"

/-- `isinstance(v, str)` for a `PyVal`. -/
def PyVal.isStr : PyVal → Bool
  | .str _ => true
  | _ => false

/-- State of a `CompteBancaire` instance: the two slots declared by
`__slots__ = ("titulaire", "_solde")`. -/
structure CompteBancaire where
  titulaire : String
  _solde : ℚ
deriving DecidableEq

/-- `CompteBancaire.__init__(titulaire, solde=0.0)`:
raises `TypeError` if `titulaire` is not a string, `ValueError` if the
initial balance is negative, else stores `titulaire` and `float(solde)`.
`solde < 0` on a non-numeric value raises `TypeError` in Python (the
comparison is unsupported); that branch is unreachable from the module's
own call sites. -/
def CompteBancaire.init (titulaire : PyVal) (solde : PyVal) :
    Except PyError CompteBancaire :=
  match titulaire with
  | .str t =>
    match solde with
    | .num q =>
      if q < 0 then
        .error (.valueError "Le solde initial ne peut pas être négatif.")
      else
        .ok ⟨t, q⟩
    | _ => .error (.typeError "unsupported comparison between non-numeric value and int")
  | _ => .error (.typeError "Le titulaire doit être une chaîne de caractères.")

/-- `CompteBancaire.deposer(montant)`: raises `ValueError` if
`montant <= 0`, else `self._solde += montant`.  (The
`journaliser_operation` decorator only prints and is not modelled.) -/
def CompteBancaire.deposer (self : CompteBancaire) (montant : ℚ) :
    Option PyError × CompteBancaire :=
  if montant ≤ 0 then
    (some (.valueError "Le montant du dépôt doit être strictement positif."), self)
  else
    (none, { self with _solde := self._solde + montant })

/-- `CompteBancaire.retirer(montant)`: raises `ValueError` if
`montant <= 0`, raises `ValueError` if `montant > self._solde`, else
`self._solde -= montant`. -/
def CompteBancaire.retirer (self : CompteBancaire) (montant : ℚ) :
    Option PyError × CompteBancaire :=
  if montant ≤ 0 then
    (some (.valueError "Le montant du retrait doit être strictement positif."), self)
  else if montant > self._solde then
    (some (.valueError "Solde insuffisant pour effectuer cette opération."), self)
  else
    (none, { self with _solde := self._solde - montant })

/-- The `solde` property getter: returns `self._solde`. -/
def CompteBancaire.solde (self : CompteBancaire) : ℚ :=
  self._solde

/-- The `solde` property setter: raises `ValueError` if `valeur < 0`,
else `self._solde = valeur`. -/
def CompteBancaire.setSolde (self : CompteBancaire) (valeur : ℚ) :
    Option PyError × CompteBancaire :=
  if valeur < 0 then
    (some (.valueError "Le solde ne peut pas être négatif."), self)
  else
    (none, { self with _solde := valeur })

/-- `dict.get(k, default)` on a string-keyed dictionary embedded as an
association list (first binding wins, as in a dict each key occurs once). -/
def pyGet (data : List (String × PyVal)) (k : String) (default : PyVal) : PyVal :=
  match data.find? (fun p => p.1 == k) with
  | some p => p.2
  | Option.none => default

/-- `CompteBancaire.depuis_dict(data)`: reads `data.get("titulaire")`
(default `None`) and `data.get("solde", 0.0)`, and delegates to the
constructor. -/
def CompteBancaire.depuis_dict (data : List (String × PyVal)) :
    Except PyError CompteBancaire :=
  CompteBancaire.init (pyGet data "titulaire" .none) (pyGet data "solde" (.num 0))

/-- State of a `CompteEpargne` instance: the two inherited slots plus
`taux_interet`, which (since `CompteEpargne` declares no `__slots__`)
lives in the instance `__dict__`. -/
structure CompteEpargne where
  titulaire : String
  _solde : ℚ
  taux_interet : ℚ
deriving DecidableEq

/-- The `CompteBancaire` view of a `CompteEpargne`: the inherited methods
(`deposer`, `retirer`, `solde`, `__eq__`, ...) read exactly these fields. -/
def CompteEpargne.toBase (c : CompteEpargne) : CompteBancaire :=
  ⟨c.titulaire, c._solde⟩

/-- `CompteEpargne.__init__(titulaire, solde=0.0, taux_interet=0.02)`:
runs `super().__init__(titulaire, solde)` first (propagating its
exceptions), then raises `ValueError` if `taux_interet < 0`, else stores
`taux_interet`. -/
def CompteEpargne.init (titulaire : PyVal) (solde : PyVal) (taux_interet : ℚ) :
    Except PyError CompteEpargne :=
  match CompteBancaire.init titulaire solde with
  | .error e => .error e
  | .ok base =>
    if taux_interet < 0 then
      .error (.valueError "Le taux d’intérêt doit être positif.")
    else
      .ok ⟨base.titulaire, base._solde, taux_interet⟩

/-- `CompteEpargne.ajouter_interets()`: computes
`interets = self.solde * self.taux_interet` and does
`self._solde += interets`.  No validation, no exception; the trailing
`print` is not modelled. -/
def CompteEpargne.ajouterInterets (self : CompteEpargne) : CompteEpargne :=
  let interets := self.toBase.solde * self.taux_interet
  { self with _solde := self._solde + interets }

/-- Any Python value a `CompteBancaire` can be compared against with `==`:
an account, a savings account, or a non-account value. -/
inductive PyObject where
  | compte (c : CompteBancaire)
  | epargne (c : CompteEpargne)
  | val (v : PyVal)
deriving DecidableEq

/-- `isinstance(autre, CompteBancaire)` together with the attribute reads
`autre.titulaire` / `autre._solde` used by `__eq__`: a `CompteEpargne`
passes the check (subclass) and exposes the inherited fields. -/
def PyObject.asCompteBancaire : PyObject → Option CompteBancaire
  | .compte c => some c
  | .epargne c => some c.toBase
  | .val _ => Option.none

/-- `CompteBancaire.__eq__(autre)`: `False` unless `autre` is a
`CompteBancaire` (or subclass); otherwise compares `titulaire` and
`_solde` for exact equality. -/
def CompteBancaire.eq (self : CompteBancaire) (autre : PyObject) : Bool :=
  match autre.asCompteBancaire with
  | some c => self.titulaire == c.titulaire && self._solde == c._solde
  | Option.none => false

/-- `__eq__` as inherited by `CompteEpargne`: it reads only the base
fields of `self`. -/
def CompteEpargne.eq (self : CompteEpargne) (autre : PyObject) : Bool :=
  self.toBase.eq autre

/-- The instance `__dict__` of a `CompteEpargne`, as a key-value list.
`CompteBancaire.__slots__ = ("titulaire", "_solde")` turns those two
attributes into slot descriptors, so assigning them never touches the
instance `__dict__`; `CompteEpargne` declares no `__slots__`, so its
instances do have a `__dict__`, and the only attribute stored there is
`taux_interet` (assigned in `CompteEpargne.__init__`). -/
def CompteEpargne.instDict (c : CompteEpargne) : List (String × ℚ) :=
  [("taux_interet", c.taux_interet)]

/-- `ExportJSONMixin.to_json()`: `json.dumps(self.__dict__, indent=4,
ensure_ascii=False)`.  Modelled as the key-value content of the document
(indentation and number formatting abstracted away): exactly the entries
of the instance `__dict__`. -/
def CompteEpargne.to_json (c : CompteEpargne) : List (String × ℚ) :=
  c.instDict

/-- `n` successive calls of `ajouter_interets` on the same instance. -/
def iterInterets (c : CompteEpargne) : Nat → CompteEpargne
  | 0 => c
  | n + 1 => (iterInterets c n).ajouterInterets

/-- C1: the claim fails on the code.  For the savings account constructed
as ("Bob", 200.0, rate=0.03), after one `ajouter_interets` the balance is
206, but `to_json` serializes only the instance `__dict__`, which (because
`titulaire` and `_solde` are `__slots__` attributes of the base class)
holds nothing but `taux_interet`: the export's key set is exactly
`["taux_interet"]`, so holder and balance are absent and the output is not
a complete record of the instance state. -/
theorem C1_to_json_only_interest_rate :
    CompteEpargne.init (.str "Bob") (.num 200) (3/100) =
      .ok (⟨"Bob", 200, 3/100⟩ : CompteEpargne) ∧
    (⟨"Bob", 200, 3/100⟩ : CompteEpargne).ajouterInterets =
      (⟨"Bob", 206, 3/100⟩ : CompteEpargne) ∧
    (⟨"Bob", 206, 3/100⟩ : CompteEpargne).to_json = [("taux_interet", 3/100)] ∧
    ((⟨"Bob", 206, 3/100⟩ : CompteEpargne).to_json).map Prod.fst = ["taux_interet"] := by
  refine ⟨by norm_num [CompteEpargne.init, CompteBancaire.init], ?_, rfl, rfl⟩
  norm_num [CompteEpargne.ajouterInterets, CompteEpargne.toBase, CompteBancaire.solde,
    CompteEpargne.mk.injEq]

/-- C2 counterexample: the claim asserts the two withdrawal failure kinds
are distinguishable error classes, but the code raises both as the same
Python exception class `ValueError` (only the messages differ).  At the
concrete account ("A", 5): `retirer(0)` and `retirer(10)` raise exceptions
with equal `className`. -/
theorem C2_same_error_class :
    ((⟨"A", 5⟩ : CompteBancaire).retirer 0).1 =
      some (.valueError "Le montant du retrait doit être strictement positif.") ∧
    ((⟨"A", 5⟩ : CompteBancaire).retirer 10).1 =
      some (.valueError "Solde insuffisant pour effectuer cette opération.") ∧
    (PyError.valueError "Le montant du retrait doit être strictement positif.").className =
      (PyError.valueError "Solde insuffisant pour effectuer cette opération.").className := by
  exact ⟨rfl, rfl, rfl⟩

/-- C2 (amended): `retirer(amount)` raises
`ValueError("Le montant du retrait doit être strictement positif.")` when
`amount <= 0`, raises
`ValueError("Solde insuffisant pour effectuer cette opération.")` when
`amount > balance`, and otherwise succeeds with the balance decreased by
exactly `amount`; the two failures are distinguishable by message but
belong to the same exception class `ValueError` (the spec-level names
`InvalidArgument` / `InsufficientFunds` do not correspond to distinct
classes in the code). -/
theorem C2_retirer_amended (c : CompteBancaire) (m : ℚ) :
    (m ≤ 0 → c.retirer m =
      (some (.valueError "Le montant du retrait doit être strictement positif."), c)) ∧
    (0 < m → c._solde < m → c.retirer m =
      (some (.valueError "Solde insuffisant pour effectuer cette opération."), c)) ∧
    (0 < m → m ≤ c._solde →
      c.retirer m = (Option.none, ⟨c.titulaire, c._solde - m⟩)) ∧
    (PyError.valueError "Le montant du retrait doit être strictement positif." ≠
      PyError.valueError "Solde insuffisant pour effectuer cette opération.") := by
  refine ⟨fun h => ?_, fun h1 h2 => ?_, fun h1 h2 => ?_, by simp⟩
  · unfold CompteBancaire.retirer
    rw [if_pos h]
  · unfold CompteBancaire.retirer
    rw [if_neg (not_le.mpr h1), if_pos h2]
  · unfold CompteBancaire.retirer
    rw [if_neg (not_le.mpr h1), if_neg (not_lt.mpr h2)]

theorem C2_retirer_amended_witness :
    (⟨"A", 5⟩ : CompteBancaire).retirer 0 =
      (some (.valueError "Le montant du retrait doit être strictement positif."), ⟨"A", 5⟩) ∧
    (⟨"A", 5⟩ : CompteBancaire).retirer 10 =
      (some (.valueError "Solde insuffisant pour effectuer cette opération."), ⟨"A", 5⟩) ∧
    (⟨"A", 5⟩ : CompteBancaire).retirer 3 = (Option.none, ⟨"A", 5 - 3⟩) :=
  ⟨(C2_retirer_amended ⟨"A", 5⟩ 0).1 (by decide),
   (C2_retirer_amended ⟨"A", 5⟩ 10).2.1 (by decide) (by decide),
   (C2_retirer_amended ⟨"A", 5⟩ 3).2.2.1 (by decide) (by decide)⟩

/-- C3: every successful construction (direct, savings, or from a
dictionary) establishes `balance ≥ 0` (for savings also `rate ≥ 0`), and
every operation that completes without raising — `deposer`, `retirer`,
the `solde` setter, and `ajouter_interets` — preserves `balance ≥ 0`. -/
theorem C3_balance_nonneg :
    (∀ tv sv c, CompteBancaire.init tv sv = .ok c → 0 ≤ c._solde) ∧
    (∀ tv sv r e, CompteEpargne.init tv sv r = .ok e →
        0 ≤ e._solde ∧ 0 ≤ e.taux_interet) ∧
    (∀ data c, CompteBancaire.depuis_dict data = .ok c → 0 ≤ c._solde) ∧
    (∀ (c : CompteBancaire) (m : ℚ) c', 0 ≤ c._solde →
        c.deposer m = (Option.none, c') → 0 ≤ c'._solde) ∧
    (∀ (c : CompteBancaire) (m : ℚ) c', 0 ≤ c._solde →
        c.retirer m = (Option.none, c') → 0 ≤ c'._solde) ∧
    (∀ (c : CompteBancaire) (v : ℚ) c',
        c.setSolde v = (Option.none, c') → 0 ≤ c'._solde) ∧
    (∀ e : CompteEpargne, 0 ≤ e._solde → 0 ≤ e.taux_interet →
        0 ≤ e.ajouterInterets._solde) := by
  have hinit : ∀ tv sv c, CompteBancaire.init tv sv = .ok c → 0 ≤ c._solde := by
    intro tv sv c h
    unfold CompteBancaire.init at h
    cases tv with
    | str t =>
      cases sv with
      | num q =>
        dsimp only at h
        by_cases hq : q < 0
        · rw [if_pos hq] at h; exact absurd h (by simp)
        · rw [if_neg hq] at h
          simp only [Except.ok.injEq] at h
          subst h
          exact le_of_not_lt hq
      | str s => exact absurd h (by simp)
      | none => exact absurd h (by simp)
    | num q => exact absurd h (by simp)
    | none => exact absurd h (by simp)
  refine ⟨hinit, ?_, ?_, ?_, ?_, ?_, ?_⟩
  · intro tv sv r e h
    unfold CompteEpargne.init at h
    cases hb : CompteBancaire.init tv sv with
    | error err => rw [hb] at h; exact absurd h (by simp)
    | ok base =>
      rw [hb] at h
      dsimp only at h
      by_cases hr : r < 0
      · rw [if_pos hr] at h; exact absurd h (by simp)
      · rw [if_neg hr] at h
        simp only [Except.ok.injEq] at h
        subst h
        exact ⟨hinit tv sv base hb, le_of_not_lt hr⟩
  · intro data c h
    unfold CompteBancaire.depuis_dict at h
    exact hinit _ _ c h
  · intro c m c' hc h
    unfold CompteBancaire.deposer at h
    by_cases hm : m ≤ 0
    · rw [if_pos hm] at h; exact absurd h (by simp)
    · rw [if_neg hm] at h
      simp only [Prod.mk.injEq] at h
      rw [← h.2]
      have := not_le.mp hm
      simp only []
      linarith
  · intro c m c' hc h
    unfold CompteBancaire.retirer at h
    by_cases hm : m ≤ 0
    · rw [if_pos hm] at h; exact absurd h (by simp)
    · by_cases hs : m > c._solde
      · rw [if_neg hm, if_pos hs] at h; exact absurd h (by simp)
      · rw [if_neg hm, if_neg hs] at h
        simp only [Prod.mk.injEq] at h
        rw [← h.2]
        have := not_lt.mp hs
        simp only []
        linarith
  · intro c v c' h
    unfold CompteBancaire.setSolde at h
    by_cases hv : v < 0
    · rw [if_pos hv] at h; exact absurd h (by simp)
    · rw [if_neg hv] at h
      simp only [Prod.mk.injEq] at h
      rw [← h.2]
      exact le_of_not_lt hv
  · intro e hs hr
    unfold CompteEpargne.ajouterInterets
    have : 0 ≤ e._solde * e.taux_interet := mul_nonneg hs hr
    simp only [CompteEpargne.toBase, CompteBancaire.solde]
    linarith

theorem C3_balance_nonneg_witness :
    (0:ℚ) ≤ (⟨"A", 3⟩ : CompteBancaire)._solde ∧
    ((0:ℚ) ≤ (⟨"B", 2, 1⟩ : CompteEpargne)._solde ∧
      (0:ℚ) ≤ (⟨"B", 2, 1⟩ : CompteEpargne).taux_interet) ∧
    (0:ℚ) ≤ (⟨"C", 500⟩ : CompteBancaire)._solde ∧
    (0:ℚ) ≤ (⟨"A", 1 + 2⟩ : CompteBancaire)._solde ∧
    (0:ℚ) ≤ (⟨"A", 5 - 3⟩ : CompteBancaire)._solde ∧
    (0:ℚ) ≤ (⟨"A", 0⟩ : CompteBancaire)._solde ∧
    (0:ℚ) ≤ ((⟨"B", 2, 1⟩ : CompteEpargne).ajouterInterets)._solde :=
  ⟨C3_balance_nonneg.1 (.str "A") (.num 3) ⟨"A", 3⟩ rfl,
   C3_balance_nonneg.2.1 (.str "B") (.num 2) 1 ⟨"B", 2, 1⟩ rfl,
   C3_balance_nonneg.2.2.1 [("titulaire", .str "C"), ("solde", .num 500)] ⟨"C", 500⟩ rfl,
   C3_balance_nonneg.2.2.2.1 ⟨"A", 1⟩ 2 ⟨"A", 1 + 2⟩ (by decide) rfl,
   C3_balance_nonneg.2.2.2.2.1 ⟨"A", 5⟩ 3 ⟨"A", 5 - 3⟩ (by decide) rfl,
   C3_balance_nonneg.2.2.2.2.2.1 ⟨"A", 5⟩ 0 ⟨"A", 0⟩ rfl,
   C3_balance_nonneg.2.2.2.2.2.2 ⟨"B", 2, 1⟩ (by decide) (by decide)⟩

/-- C4: whenever `deposer`, `retirer`, or the `solde` setter raises, the
instance state returned alongside the exception is exactly the state
before the call: every `raise` in the source precedes any field
assignment, so a failing operation performs no partial mutation. -/
theorem C4_no_partial_mutation (c : CompteBancaire) (m v : ℚ) :
    ((c.deposer m).1.isSome → (c.deposer m).2 = c) ∧
    ((c.retirer m).1.isSome → (c.retirer m).2 = c) ∧
    ((c.setSolde v).1.isSome → (c.setSolde v).2 = c) := by
  refine ⟨fun h => ?_, fun h => ?_, fun h => ?_⟩
  · by_cases hm : m ≤ 0
    · simp [CompteBancaire.deposer, hm]
    · simp [CompteBancaire.deposer, hm] at h
  · by_cases hm : m ≤ 0
    · simp [CompteBancaire.retirer, hm]
    · by_cases hs : m > c._solde
      · simp [CompteBancaire.retirer, hm, hs]
      · simp [CompteBancaire.retirer, hm, hs] at h
  · by_cases hv : v < 0
    · simp [CompteBancaire.setSolde, hv]
    · simp [CompteBancaire.setSolde, hv] at h

theorem C4_no_partial_mutation_witness :
    ((⟨"A", 5⟩ : CompteBancaire).deposer 0).2 = ⟨"A", 5⟩ ∧
    ((⟨"A", 5⟩ : CompteBancaire).retirer 10).2 = ⟨"A", 5⟩ ∧
    ((⟨"A", 5⟩ : CompteBancaire).setSolde (-1)).2 = ⟨"A", 5⟩ :=
  ⟨(C4_no_partial_mutation ⟨"A", 5⟩ 0 (-1)).1 (by decide),
   (C4_no_partial_mutation ⟨"A", 5⟩ 10 (-1)).2.1 (by decide),
   (C4_no_partial_mutation ⟨"A", 5⟩ 10 (-1)).2.2 (by decide)⟩

/-- C5: `ajouter_interets` always succeeds (the source body contains no
raise, which the model reflects by totality) and replaces the balance `b`
by exactly `b + b * taux_interet`, leaving holder and rate unchanged; at
("Bob", 200, rate 0.03) the new balance is 206. -/
theorem C5_ajouter_interets (c : CompteEpargne) :
    c.ajouterInterets =
      (⟨c.titulaire, c._solde + c._solde * c.taux_interet, c.taux_interet⟩ : CompteEpargne) ∧
    ((⟨"Bob", 200, 3/100⟩ : CompteEpargne).ajouterInterets)._solde = 206 := by
  refine ⟨rfl, ?_⟩
  norm_num [CompteEpargne.ajouterInterets, CompteEpargne.toBase, CompteBancaire.solde]

/-- C6: `depuis_dict` is exactly the constructor applied to
`data.get("titulaire")` (default `None`) and `data.get("solde")` (default
`0.0`); a record without a `titulaire` key (or with it bound to `None`)
is rejected by the constructor's string check; and a record
`{titulaire: h, solde: b}` with `b ≥ 0` yields an account that the
defined equality `__eq__` identifies with the directly constructed
account. -/
theorem C6_depuis_dict :
    (∀ data, CompteBancaire.depuis_dict data =
        CompteBancaire.init (pyGet data "titulaire" .none) (pyGet data "solde" (.num 0))) ∧
    (∀ data, pyGet data "titulaire" .none = .none →
        CompteBancaire.depuis_dict data =
          .error (.typeError "Le titulaire doit être une chaîne de caractères.")) ∧
    (∀ h : String, CompteBancaire.depuis_dict [("titulaire", .str h)] = .ok ⟨h, 0⟩) ∧
    (∀ (h : String) (b : ℚ), 0 ≤ b →
        CompteBancaire.depuis_dict [("titulaire", .str h), ("solde", .num b)] =
          .ok ⟨h, b⟩ ∧
        CompteBancaire.init (.str h) (.num b) = .ok ⟨h, b⟩ ∧
        CompteBancaire.eq ⟨h, b⟩ (.compte ⟨h, b⟩) = true) := by
  refine ⟨fun data => rfl, fun data hd => ?_, fun h => ?_, fun h b hb => ?_⟩
  · unfold CompteBancaire.depuis_dict
    rw [hd]
    rfl
  · rfl
  · have hget1 : pyGet [("titulaire", .str h), ("solde", .num b)] "titulaire" .none =
        .str h := rfl
    have hget2 : pyGet [("titulaire", .str h), ("solde", .num b)] "solde" (.num 0) =
        .num b := rfl
    have hinit : CompteBancaire.init (.str h) (.num b) = .ok ⟨h, b⟩ := by
      unfold CompteBancaire.init
      dsimp only
      rw [if_neg (not_lt.mpr hb)]
    refine ⟨?_, hinit, ?_⟩
    · unfold CompteBancaire.depuis_dict
      rw [hget1, hget2, hinit]
    · simp [CompteBancaire.eq, PyObject.asCompteBancaire]

theorem C6_depuis_dict_witness :
    CompteBancaire.depuis_dict [("solde", .num 500)] =
      .error (.typeError "Le titulaire doit être une chaîne de caractères.") ∧
    CompteBancaire.depuis_dict [("titulaire", .str "Dana")] = .ok ⟨"Dana", 0⟩ ∧
    CompteBancaire.depuis_dict [("titulaire", .str "Charlie"), ("solde", .num 500)] =
      .ok ⟨"Charlie", 500⟩ ∧
    CompteBancaire.init (.str "Charlie") (.num 500) = .ok ⟨"Charlie", 500⟩ ∧
    CompteBancaire.eq ⟨"Charlie", 500⟩ (.compte ⟨"Charlie", 500⟩) = true :=
  ⟨C6_depuis_dict.2.1 [("solde", .num 500)] rfl,
   C6_depuis_dict.2.2.1 "Dana",
   (C6_depuis_dict.2.2.2 "Charlie" 500 (by decide)).1,
   (C6_depuis_dict.2.2.2 "Charlie" 500 (by decide)).2.1,
   (C6_depuis_dict.2.2.2 "Charlie" 500 (by decide)).2.2⟩

/-- C7: `__eq__` returns `True` exactly when the compared value passes the
`isinstance(·, CompteBancaire)` check (accounts and savings accounts do,
other values do not) and has identical `titulaire` and identical `_solde`;
`taux_interet` is not consulted, so savings accounts with equal base
fields but different rates compare equal, and comparison against a
non-account value is `False`. -/
theorem C7_eq_spec :
    (∀ (self : CompteBancaire) (autre : PyObject),
        self.eq autre = true ↔
          ∃ c, autre.asCompteBancaire = some c ∧
            self.titulaire = c.titulaire ∧ self._solde = c._solde) ∧
    (∀ (self : CompteBancaire) (v : PyVal), self.eq (.val v) = false) ∧
    (∀ e₁ e₂ : CompteEpargne, e₁.titulaire = e₂.titulaire → e₁._solde = e₂._solde →
        e₁.eq (.epargne e₂) = true) := by
  refine ⟨fun self autre => ?_, fun self v => rfl, fun e₁ e₂ h1 h2 => ?_⟩
  · cases hc : autre.asCompteBancaire with
    | none => simp [CompteBancaire.eq, hc]
    | some c => simp [CompteBancaire.eq, hc]
  · simp [CompteEpargne.eq, CompteBancaire.eq, PyObject.asCompteBancaire,
      CompteEpargne.toBase, h1, h2]

theorem C7_eq_spec_witness :
    ((⟨"A", 10⟩ : CompteBancaire).eq (.compte ⟨"A", 10⟩) = true) ∧
    ((⟨"A", 10⟩ : CompteBancaire).eq (.val (.num 10)) = false) ∧
    ((⟨"A", 10, 1⟩ : CompteEpargne).eq (.epargne ⟨"A", 10, 2⟩) = true) :=
  ⟨(C7_eq_spec.1 ⟨"A", 10⟩ (.compte ⟨"A", 10⟩)).mpr ⟨⟨"A", 10⟩, rfl, rfl, rfl⟩,
   C7_eq_spec.2.1 ⟨"A", 10⟩ (.num 10),
   C7_eq_spec.2.2 ⟨"A", 10, 1⟩ ⟨"A", 10, 2⟩ rfl rfl⟩

/-- C8: on an account with non-negative balance, `deposer d` with `d > 0`
succeeds, the subsequent `retirer d` succeeds (the deposit guarantees
sufficient funds), and the resulting account is exactly the original. -/
theorem C8_deposit_withdraw_roundtrip (c : CompteBancaire) (d : ℚ)
    (hc : 0 ≤ c._solde) (hd : 0 < d) :
    (c.deposer d).1 = Option.none ∧
    ((c.deposer d).2.retirer d).1 = Option.none ∧
    ((c.deposer d).2.retirer d).2 = c := by
  have h1 : c.deposer d = (Option.none, ⟨c.titulaire, c._solde + d⟩) := by
    unfold CompteBancaire.deposer
    rw [if_neg (not_le.mpr hd)]
  have h2 : (⟨c.titulaire, c._solde + d⟩ : CompteBancaire).retirer d =
      (Option.none, ⟨c.titulaire, c._solde + d - d⟩) := by
    unfold CompteBancaire.retirer
    rw [if_neg (not_le.mpr hd), if_neg (not_lt.mpr (by change d ≤ c._solde + d; linarith))]
  refine ⟨by rw [h1], by rw [h1, h2], ?_⟩
  rw [h1, h2]
  have h3 : c._solde + d - d = c._solde := by ring
  rw [h3]

theorem C8_deposit_withdraw_roundtrip_witness :
    ((⟨"A", 5⟩ : CompteBancaire).deposer 2).1 = Option.none ∧
    (((⟨"A", 5⟩ : CompteBancaire).deposer 2).2.retirer 2).1 = Option.none ∧
    (((⟨"A", 5⟩ : CompteBancaire).deposer 2).2.retirer 2).2 = ⟨"A", 5⟩ :=
  C8_deposit_withdraw_roundtrip ⟨"A", 5⟩ 2 (by decide) (by decide)

/-- C9: construction raises for a non-string holder (`TypeError`, the
code's concrete form of the spec's `InvalidArgument`) and for a negative
initial balance (`ValueError`), and on success stores the balance exactly
(the `float(solde)` coercion is the identity on exact numerics in this
model); `CompteEpargne.__init__` runs the base validation first — its
errors surface even when the rate is also negative — and then raises
`ValueError` for a negative rate. -/
theorem C9_construction_validation :
    (∀ v s, PyVal.isStr v = false →
        CompteBancaire.init v s =
          .error (.typeError "Le titulaire doit être une chaîne de caractères.")) ∧
    (∀ (t : String) (q : ℚ), q < 0 → CompteBancaire.init (.str t) (.num q) =
        .error (.valueError "Le solde initial ne peut pas être négatif.")) ∧
    (∀ (t : String) (q : ℚ), 0 ≤ q →
        CompteBancaire.init (.str t) (.num q) = .ok ⟨t, q⟩) ∧
    (∀ v s (r : ℚ), PyVal.isStr v = false →
        CompteEpargne.init v s r =
          .error (.typeError "Le titulaire doit être une chaîne de caractères.")) ∧
    (∀ (t : String) (q r : ℚ), q < 0 → CompteEpargne.init (.str t) (.num q) r =
        .error (.valueError "Le solde initial ne peut pas être négatif.")) ∧
    (∀ (t : String) (q r : ℚ), 0 ≤ q → r < 0 →
        CompteEpargne.init (.str t) (.num q) r =
          .error (.valueError "Le taux d’intérêt doit être positif.")) ∧
    (∀ (t : String) (q r : ℚ), 0 ≤ q → 0 ≤ r →
        CompteEpargne.init (.str t) (.num q) r = .ok ⟨t, q, r⟩) := by
  have hbad : ∀ v s, PyVal.isStr v = false →
      CompteBancaire.init v s =
        .error (.typeError "Le titulaire doit être une chaîne de caractères.") := by
    intro v s hv
    cases v with
    | str t => simp [PyVal.isStr] at hv
    | num q => rfl
    | none => rfl
  have hneg : ∀ (t : String) (q : ℚ), q < 0 → CompteBancaire.init (.str t) (.num q) =
      .error (.valueError "Le solde initial ne peut pas être négatif.") := by
    intro t q hq
    unfold CompteBancaire.init
    dsimp only
    rw [if_pos hq]
  have hok : ∀ (t : String) (q : ℚ), 0 ≤ q →
      CompteBancaire.init (.str t) (.num q) = .ok ⟨t, q⟩ := by
    intro t q hq
    unfold CompteBancaire.init
    dsimp only
    rw [if_neg (not_lt.mpr hq)]
  refine ⟨hbad, hneg, hok, fun v s r hv => ?_, fun t q r hq => ?_,
    fun t q r hq hr => ?_, fun t q r hq hr => ?_⟩
  · unfold CompteEpargne.init
    rw [hbad v s hv]
  · unfold CompteEpargne.init
    rw [hneg t q hq]
  · unfold CompteEpargne.init
    rw [hok t q hq]
    dsimp only
    rw [if_pos hr]
  · unfold CompteEpargne.init
    rw [hok t q hq]
    dsimp only
    rw [if_neg (not_lt.mpr hr)]

theorem C9_construction_validation_witness :
    CompteBancaire.init .none (.num 1) =
      .error (.typeError "Le titulaire doit être une chaîne de caractères.") ∧
    CompteBancaire.init (.str "A") (.num (-1)) =
      .error (.valueError "Le solde initial ne peut pas être négatif.") ∧
    CompteBancaire.init (.str "A") (.num 2) = .ok ⟨"A", 2⟩ ∧
    CompteEpargne.init (.num 7) (.num 1) (-1) =
      .error (.typeError "Le titulaire doit être une chaîne de caractères.") ∧
    CompteEpargne.init (.str "A") (.num (-1)) (-1) =
      .error (.valueError "Le solde initial ne peut pas être négatif.") ∧
    CompteEpargne.init (.str "A") (.num 2) (-1) =
      .error (.valueError "Le taux d’intérêt doit être positif.") ∧
    CompteEpargne.init (.str "A") (.num 2) 1 = .ok ⟨"A", 2, 1⟩ :=
  ⟨C9_construction_validation.1 .none (.num 1) rfl,
   C9_construction_validation.2.1 "A" (-1) (by decide),
   C9_construction_validation.2.2.1 "A" 2 (by decide),
   C9_construction_validation.2.2.2.1 (.num 7) (.num 1) (-1) rfl,
   C9_construction_validation.2.2.2.2.1 "A" (-1) (-1) (by decide),
   C9_construction_validation.2.2.2.2.2.1 "A" 2 (-1) (by decide) (by decide),
   C9_construction_validation.2.2.2.2.2.2 "A" 2 1 (by decide) (by decide)⟩

/-- C10: `n` successive `ajouter_interets` calls turn balance `b` into
exactly `b * (1 + r)^n` (the credited interest itself earns interest on
later calls), leave the rate and holder unchanged, and — when `b ≥ 0` and
`r ≥ 0` — never decrease the balance. -/
theorem C10_compound_interest (c : CompteEpargne) (n : Nat) :
    (iterInterets c n)._solde = c._solde * (1 + c.taux_interet) ^ n ∧
    (iterInterets c n).taux_interet = c.taux_interet ∧
    (iterInterets c n).titulaire = c.titulaire ∧
    (0 ≤ c._solde → 0 ≤ c.taux_interet → c._solde ≤ (iterInterets c n)._solde) := by
  induction n with
  | zero =>
    refine ⟨by simp [iterInterets], rfl, rfl, fun _ _ => le_refl _⟩
  | succ n ih =>
    obtain ⟨hs, ht, hn, hmono⟩ := ih
    have hstep : (iterInterets c (n + 1))._solde =
        (iterInterets c n)._solde +
          (iterInterets c n)._solde * (iterInterets c n).taux_interet := rfl
    refine ⟨?_, ht, hn, ?_⟩
    · rw [hstep, hs, ht]
      ring
    · intro hb hr
      have h0 : (0:ℚ) ≤ (iterInterets c n)._solde := by
        rw [hs]
        have h1r : (0:ℚ) ≤ 1 + c.taux_interet := by linarith
        exact mul_nonneg hb (pow_nonneg h1r n)
      have h1 : 0 ≤ (iterInterets c n)._solde * (iterInterets c n).taux_interet := by
        rw [ht]
        exact mul_nonneg h0 hr
      have h2 := hmono hb hr
      rw [hstep]
      linarith

theorem C10_compound_interest_witness :
    (iterInterets ⟨"B", 100, 1⟩ 2)._solde = 100 * (1 + 1) ^ 2 ∧
    (100:ℚ) ≤ (iterInterets ⟨"B", 100, 1⟩ 2)._solde :=
  ⟨(C10_compound_interest ⟨"B", 100, 1⟩ 2).1,
   (C10_compound_interest ⟨"B", 100, 1⟩ 2).2.2.2 (by decide) (by decide)⟩
